import Mathlib

/-!
Verification development for the CICS CMCI mock server (`src/server.js`).

The core state of the server — the retained result set store, the legacy
cache, and the request handlers for the `CICSResultCache/:cachetoken`
endpoint and the wildcard `GET` resource endpoint — is shallowly embedded
as executable Lean definitions.  Time is passed explicitly (milliseconds,
as an `Int`, mirroring JavaScript `Date` subtraction); the random token
and mock-record generators are passed as explicit oracle arguments.
Numeric query/path parameters are taken post-`parseInt` where the
original accepts arbitrary strings, except where the string form is
itself significant (the dedup request key uses the raw `count` string).
-/

/-! ## Strings and the JavaScript comparison / helper primitives -/

/-- Lexicographic `<` on character lists, mirroring the JavaScript string
relational operators used by the record comparator (`aVal < bVal`).
Characters are compared by code point; this agrees with JavaScript's
UTF-16 code-unit comparison on all Basic Multilingual Plane strings,
which covers every attribute value the server produces. -/
def ltChars : List Char → List Char → Bool
  | _, [] => false
  | [], _ :: _ => true
  | a :: as, b :: bs =>
    if a < b then true
    else if b < a then false
    else ltChars as bs

/-- JavaScript `a < b` on strings. -/
def strLt (a b : String) : Bool := ltChars a.data b.data

/-- Whitespace recognised by the trimming model (space, tab, LF, CR —
the forms that can occur in the server's inputs). -/
def isWS (c : Char) : Bool := c = ' ' || c = '\t' || c = '\n' || c = '\r'

/-- Trim leading and trailing whitespace from a character list. -/
def trimChars (cs : List Char) : List Char :=
  ((cs.dropWhile isWS).reverse.dropWhile isWS).reverse

/-- JavaScript `String.prototype.trim`. -/
def jsTrim (s : String) : String := String.mk (trimChars s.data)

/-- Accumulate decimal digits into a natural number. -/
def digitsToNat : List Char → Nat → Nat
  | [], acc => acc
  | c :: cs, acc => digitsToNat cs (acc * 10 + (c.toNat - 48))

/-- JavaScript `parseInt` with no radix argument, on decimal inputs:
skip whitespace, optional sign, maximal digit prefix; `none` models
`NaN` (no digits).  The `0x` hexadecimal auto-detection is not modelled;
no caller in the server passes hexadecimal strings. -/
def parseIntJS (s : String) : Option Int :=
  let cs := trimChars s.data
  let signed : Int × List Char :=
    match cs with
    | '-' :: r => (-1, r)
    | '+' :: r => (1, r)
    | r => (1, r)
  let ds := signed.2.takeWhile Char.isDigit
  if ds.isEmpty then none
  else some (signed.1 * (digitsToNat ds 0 : Int))

/-- JavaScript `a.split(',')` (auxiliary: current accumulated segment). -/
def splitCommaAux : List Char → List Char → List String
  | [], acc => [String.mk acc.reverse]
  | c :: cs, acc =>
    if c = ',' then String.mk acc.reverse :: splitCommaAux cs []
    else splitCommaAux cs (c :: acc)

/-- JavaScript `s.split(',')`. -/
def splitComma (s : String) : List String := splitCommaAux s.data []

/-- JavaScript `a || b` where `a` is a possibly-absent string
(`undefined` and the empty string are falsy). -/
def jsOrOpt (a b : Option String) : Option String :=
  match a with
  | some s => if s = "" then b else some s
  | none => b

/-- JavaScript `a || b` where `b` is a present default string. -/
def jsOrStr (a : Option String) (b : String) : String :=
  match a with
  | some s => if s = "" then b else s
  | none => b

/-- JavaScript truthiness of a possibly-absent string. -/
def truthyStr : Option String → Bool
  | some s => s ≠ ""
  | none => false

/-- JavaScript `Array.prototype.slice(s, e)` (clamping, negative indices
counted from the end). -/
def jsSlice {α : Type} (l : List α) (s e : Int) : List α :=
  let len : Int := l.length
  let s1 := (if s < 0 then max (len + s) 0 else min s len).toNat
  let e1 := (if e < 0 then max (len + e) 0 else min e len).toNat
  (l.take e1).drop s1

/-! ## Records and the ordering comparator (`RetainedResultSet.getRecords`) -/

/-- A mock record: the `$` attribute object of the XML record, as an
association list of attribute name/value pairs. -/
structure CmciRecord where
  attrs : List (String × String)
deriving Repr, DecidableEq, Inhabited

/-- `a.$?.[field] || ''` — attribute lookup with a missing or unknown
field read as the empty string. -/
def getField (r : CmciRecord) (f : String) : String :=
  (List.lookup f r.attrs).getD ""

/-- The comparator of `getRecords`' sort: walk the ordered field list,
returning the first strict string comparison, `eq` when every field
ties (JavaScript returns -1 / 1 / 0). -/
def fieldCmp : List String → CmciRecord → CmciRecord → Ordering
  | [], _, _ => .eq
  | f :: rest, a, b =>
    if strLt (getField a f) (getField b f) then .lt
    else if strLt (getField b f) (getField a f) then .gt
    else fieldCmp rest a b

/-- The "comparator result ≤ 0" relation under which a stable sort with
`fieldCmp` orders the records. -/
def recLe (fields : List String) (a b : CmciRecord) : Bool :=
  match fieldCmp fields a b with
  | .gt => false
  | _ => true

/-- `orderBy.split(',').map(f => f.trim())`. -/
def splitFields (ob : String) : List String := (splitComma ob).map jsTrim

/-- `records.sort(comparator)` on a clone of the data: JavaScript
`Array.prototype.sort` is stable, so it is modelled by a stable merge
sort under the comparator's ≤ relation. -/
def sortRecords (fields : List String) (l : List CmciRecord) : List CmciRecord :=
  l.mergeSort (fun a b => recLe fields a b)

/-! ## Retained result sets -/

/-- Query parameters of a resource request, as the wildcard handler
reads them.  `index` is taken post-`parseInt` (claims quantify over
integer values); `count` is kept as the raw string because the dedup
request key uses `query.count || '10'` verbatim.  `nodiscard` and
`summonly` model `hasOwnProperty` presence of either spelling. -/
structure Query where
  cachetoken : Option String := none
  cacheToken2 : Option String := none
  index : Option Int := none
  count : Option String := none
  orderby : Option String := none
  orderbyUpper : Option String := none
  simulate : Option String := none
  nodiscard : Bool := false
  summonly : Bool := false
  cacheFlag : Bool := false
deriving Repr, DecidableEq, Inhabited

/-- A retained result set (class `RetainedResultSet`). -/
structure RetainedResultSet where
  resourceType : String
  data : List CmciRecord
  sessionId : String
  createdAt : Int
  lastAccessed : Int
  query : Query
  totalRecords : Nat
deriving Repr, DecidableEq, Inhabited

/-- The constructor: `totalRecords` is fixed to `data.length`, both
timestamps start at the construction instant. -/
def RetainedResultSet.make (resourceType : String) (data : List CmciRecord)
    (sessionId : String) (query : Query) (now : Int) : RetainedResultSet :=
  { resourceType := resourceType, data := data, sessionId := sessionId,
    createdAt := now, lastAccessed := now, query := query,
    totalRecords := data.length }

/-- `isExpired()`: more than 15 minutes since last access. -/
def RetainedResultSet.isExpired (rs : RetainedResultSet) (now : Int) : Bool :=
  now - rs.lastAccessed > 15 * 60 * 1000

/-- Result triple of `getRecords`. -/
structure PageResult where
  records : List CmciRecord
  displayedCount : Int
  totalCount : Nat
deriving Repr, DecidableEq, Inhabited

/-- `getRecords(index, count, orderBy)`: touch, clone-sort when an
order-by string is truthy, then slice `[max(0,index-1), endIndex)`
where `endIndex` is the record count unless `count` is a truthy number.
`count = some 0` is JavaScript-falsy; `none` covers both `null` and a
`NaN` parse, which the truthiness test treats identically.  Returns the
page together with the touched result set. -/
def pageRecordsList (rs : RetainedResultSet) (orderBy : Option String) :
    List CmciRecord :=
  match orderBy with
  | some ob => if ob = "" then rs.data else sortRecords (splitFields ob) rs.data
  | none => rs.data

/-- `count ? Math.min(startIndex + count, records.length) : records.length`
(`count = some 0` is falsy). -/
def pageEndIndex (count : Option Int) (startIndex len : Int) : Int :=
  match count with
  | some c => if c = 0 then len else min (startIndex + c) len
  | none => len

def RetainedResultSet.getRecords (rs : RetainedResultSet) (index : Int)
    (count : Option Int) (orderBy : Option String) (now : Int) :
    PageResult × RetainedResultSet :=
  let touched := { rs with lastAccessed := now }
  let records := pageRecordsList rs orderBy
  let startIndex : Int := max 0 (index - 1)
  let endIndex : Int := pageEndIndex count startIndex (records.length : Int)
  (⟨jsSlice records startIndex endIndex, endIndex - startIndex, rs.totalRecords⟩,
   touched)

/-! ## Server state: token-keyed stores -/

/-- Association-list model of a JavaScript `Map` (insertion order is
significant: the dedup scan iterates entries in insertion order).
`Map.get`: the value at the first matching key. -/
def mapGet {α : Type} : List (String × α) → String → Option α
  | [], _ => none
  | p :: m, k => if p.1 = k then some p.2 else mapGet m k

/-- `Map.set`: update in place when the key exists, else append.  (A
JavaScript `Map` never holds duplicate keys, so replacing the first
match is exact on every reachable state.) -/
def mapSet {α : Type} : List (String × α) → String → α → List (String × α)
  | [], k, v => [(k, v)]
  | p :: m, k, v => if p.1 = k then (k, v) :: m else p :: mapSet m k v

/-- `Map.delete` (removes every binding of the key; identical to the
single-entry delete on duplicate-free states). -/
def mapDelete {α : Type} : List (String × α) → String → List (String × α)
  | [], _ => []
  | p :: m, k => if p.1 = k then mapDelete m k else p :: mapDelete m k

/-- The mutable module-level stores the claims concern:
`retainedResultSets` and the legacy `cache`. -/
structure ServerState where
  retainedResultSets : List (String × RetainedResultSet)
  legacyCache : List (String × String)
deriving Repr, DecidableEq, Inhabited

/-! ## Responses -/

def RESPONSE_OK : String := "1024"
def RESPONSE_NODATA : String := "1027"
def RESPONSE_INVALIDPARM : String := "1028"
def RESPONSE_NOTAVAILABLE : String := "1034"
def SUCCESS_RESPONSE_2 : String := "0"

/-- The record block of a response: a single record is embedded directly
under the resource-type key, several as a list. -/
inductive RecordsBlock where
  | single (resourceType : String) (r : CmciRecord)
  | many (resourceType : String) (rs : List CmciRecord)
deriving Repr, DecidableEq

/-- The `resultsummary` attribute set (only the keys some handler
writes; absent keys are `none`). -/
structure ResultSummary where
  api_source : Option String := none
  api_function : Option String := none
  api_response1 : String
  api_response2 : String
  api_response1_alt : String
  api_response2_alt : String
  recordcount : String
  displayed_recordcount : Option String := none
  cachetoken : Option String := none
deriving Repr, DecidableEq

/-- A response: either a structured CMCI XML document (status, summary,
optional record block) or a raw pre-serialized body (the legacy-cache
hit replays the stored string verbatim). -/
inductive HttpResponse where
  | xml (status : Nat) (summary : ResultSummary) (records : Option RecordsBlock)
  | raw (status : Nat) (body : String)
deriving Repr, DecidableEq

/-- HTTP status of a response. -/
def HttpResponse.status : HttpResponse → Nat
  | .xml s _ _ => s
  | .raw s _ => s

/-- 404 error for an unknown cache token on the dedicated endpoint. -/
def tokenNotFoundResponse : HttpResponse :=
  .xml 404
    { api_function := some "GET", api_response1 := RESPONSE_NOTAVAILABLE,
      api_response2 := SUCCESS_RESPONSE_2, api_response1_alt := "NOTAVAILABLE",
      api_response2_alt := "Cache token not found", recordcount := "0" }
    none

/-- 403 error for a cache token owned by another session (identical in
both handlers). -/
def accessDeniedResponse : HttpResponse :=
  .xml 403
    { api_function := some "GET", api_response1 := RESPONSE_NOTAVAILABLE,
      api_response2 := SUCCESS_RESPONSE_2, api_response1_alt := "NOTAVAILABLE",
      api_response2_alt := "Access denied", recordcount := "0" }
    none

/-- Record block of the two cache-page paths: omitted under summary-only
or when no record is delivered; single record embedded directly; else a
list (`!summOnly && records.length > 0`, then `length === 1`). -/
def recordsBlockOf (resourceType : String) (summonly : Bool)
    (records : List CmciRecord) : Option RecordsBlock :=
  if summonly then none
  else
    match records with
    | [] => none
    | [r] => some (.single resourceType r)
    | rs => some (.many resourceType rs)

/-- Record block of the fresh-generation path: omitted only under
summary-only (`!summOnly`, then `length === 1`); zero generated records
yield an (empty) list block. -/
def freshRecordsBlockOf (resourceType : String) (summonly : Bool)
    (records : List CmciRecord) : Option RecordsBlock :=
  if summonly then none
  else
    match records with
    | [r] => some (.single resourceType r)
    | rs => some (.many resourceType rs)

/-- The XML wire serialization (`createXMLResponse` composed with the
xml2js builder) is an external collaborator; the legacy cache stores the
serialized page, modelled by a structural rendering of the summary and
record block.  Its output is never empty (JavaScript-truthy). -/
def serializeResponse (summary : ResultSummary) (records : Option RecordsBlock) :
    String :=
  "XML:" ++ reprStr (summary, records)

/-! ## The dedicated `CICSResultCache/:cachetoken` handler -/

/-- Handler for `GET /CICSSystemManagement/CICSResultCache/:cachetoken`
(`src/server.js` lines 472–558).  `pathIndex`/`pathCount` are the
`parseInt` results of the optional extra path segments (`none` =
absent; a `NaN` count behaves as `null` and is folded into `none`).
Note the handler checks existence and ownership but never expiry. -/
def handleResultCache (st : ServerState) (sessionId cachetoken : String)
    (pathIndex : Option Int) (pathCount : Option Int) (q : Query) (now : Int) :
    HttpResponse × ServerState :=
  match mapGet st.retainedResultSets cachetoken with
  | none => (tokenNotFoundResponse, st)
  | some rs =>
    if rs.sessionId ≠ sessionId then (accessDeniedResponse, st)
    else
      let index := pathIndex.getD 1
      let orderBy := jsOrOpt q.orderby q.orderbyUpper
      let pr := rs.getRecords index pathCount orderBy now
      let st1 := { st with
        retainedResultSets := mapSet st.retainedResultSets cachetoken pr.2 }
      let st2 :=
        if q.nodiscard then st1
        else { st1 with
          retainedResultSets := mapDelete st1.retainedResultSets cachetoken }
      let summary : ResultSummary :=
        { api_response1 := RESPONSE_OK, api_response2 := SUCCESS_RESPONSE_2,
          api_response1_alt := "OK", api_response2_alt := "",
          recordcount := toString pr.1.totalCount,
          displayed_recordcount := some (toString pr.1.displayedCount),
          cachetoken := if q.nodiscard then some cachetoken else none }
      (.xml 200 summary (recordsBlockOf rs.resourceType q.summonly pr.1.records),
       st2)

/-! ## The wildcard `GET` resource handler -/

/-- The signature JSON-stringified by the deduplication scan
(`resourceType`, `sessionId`, `count: query.count || '10'`,
`simulate`, `summonly`); `JSON.stringify` equality of those objects is
componentwise equality (an `undefined` `simulate` is omitted on both
sides exactly when both are absent). -/
structure RequestKey where
  resourceType : String
  sessionId : String
  count : String
  simulate : Option String
  summonly : Bool
deriving Repr, DecidableEq, BEq

/-- The request's key (`src/server.js` lines 713–720). -/
def requestKeyOfQuery (resourceType sessionId : String) (q : Query) : RequestKey :=
  { resourceType := resourceType, sessionId := sessionId,
    count := jsOrStr q.count "10", simulate := q.simulate,
    summonly := q.summonly }

/-- A stored set's key (`src/server.js` lines 727–733). -/
def requestKeyOfSet (rs : RetainedResultSet) : RequestKey :=
  { resourceType := rs.resourceType, sessionId := rs.sessionId,
    count := jsOrStr rs.query.count "10", simulate := rs.query.simulate,
    summonly := rs.query.summonly }

/-- The deduplication scan (lines 724–737): first stored entry, in
insertion order, owned by the session, of the same resource type, whose
signature matches.  Expiry is not consulted. -/
def findDedup (entries : List (String × RetainedResultSet))
    (sessionId resourceType : String) (q : Query) : Option String :=
  (entries.find? (fun p =>
      p.2.sessionId == sessionId && p.2.resourceType == resourceType &&
        requestKeyOfSet p.2 == requestKeyOfQuery resourceType sessionId q)).map
    (·.1)

/-- `generateMockData(resourceType, parseInt(query.count || '10'))`: the
per-type field generator is an external collaborator, passed as the
oracle `gen` (record `i` of the batch is `gen i`); a `NaN` count runs
the generation loop zero times, a negative count likewise. -/
def genMockRecords (gen : Nat → CmciRecord) (countParam : Option String) :
    List CmciRecord :=
  match parseIntJS (jsOrStr countParam "10") with
  | some n => (List.range n.toNat).map gen
  | none => []

/-- Continuation of the wildcard handler once no cache hit was taken
(lines 681–777): `simulate=nodata` short-circuit, fresh mock-data
generation (the per-type field generator is an external collaborator,
passed as the oracle `gen`; record `i` of the batch is `gen i`),
dedup-or-create when no token was provided (`freshTok` is the token the
random generator would mint), record block, and the optional legacy
store (`legacyTok` likewise).  The legacy store serializes the response
built *before* the legacy token is attached, so that token never
appears in the response. -/
def wildcardContinue (st : ServerState) (sessionId resourceType : String)
    (q : Query) (gen : Nat → CmciRecord) (freshTok legacyTok : String)
    (now : Int) : HttpResponse × ServerState :=
  if q.simulate = some "nodata" then
    (.xml 200
      { api_source := some "CICSPlex SM", api_function := some "GET",
        api_response1 := RESPONSE_NODATA, api_response2 := SUCCESS_RESPONSE_2,
        api_response1_alt := "NODATA", api_response2_alt := "",
        recordcount := "0" }
      none, st)
  else
    let mockRecords := genMockRecords gen q.count
    let baseSummary : ResultSummary :=
      { api_response1 := RESPONSE_OK, api_response2 := SUCCESS_RESPONSE_2,
        api_response1_alt := "OK", api_response2_alt := "",
        recordcount := toString mockRecords.length,
        displayed_recordcount := some (toString mockRecords.length) }
    let withToken :=
      if truthyStr (jsOrOpt q.cachetoken q.cacheToken2) then (baseSummary, st)
      else
        match findDedup st.retainedResultSets sessionId resourceType q with
        | some existingToken =>
          ({ baseSummary with cachetoken := some existingToken }, st)
        | none =>
          let created := RetainedResultSet.make resourceType mockRecords sessionId q now
          ({ baseSummary with cachetoken := some freshTok },
           { st with retainedResultSets :=
               mapSet st.retainedResultSets freshTok created })
    let summary := withToken.1
    let block := freshRecordsBlockOf resourceType q.summonly mockRecords
    let st2 :=
      if q.cacheFlag && summary.cachetoken.isNone then
        let stored := serializeResponse summary block
        { withToken.2 with
          legacyCache := mapSet withToken.2.legacyCache legacyTok stored }
      else withToken.2
    (.xml 200 summary block, st2)

/-- Paging a live retained set addressed by the `cachetoken` query
parameter (lines 624–667). -/
def cacheHitPage (st : ServerState) (providedToken : String)
    (rset : RetainedResultSet) (q : Query) (now : Int) :
    HttpResponse × ServerState :=
  let index := q.index.getD 1
  let count :=
    match q.count with
    | some s => if s = "" then none else parseIntJS s
    | none => none
  let orderBy := jsOrOpt q.orderby q.orderbyUpper
  let pr := rset.getRecords index count orderBy now
  let st1 := { st with
    retainedResultSets := mapSet st.retainedResultSets providedToken pr.2 }
  let st2 :=
    if q.nodiscard then st1
    else { st1 with
      retainedResultSets := mapDelete st1.retainedResultSets providedToken }
  let summary : ResultSummary :=
    { api_response1 := RESPONSE_OK, api_response2 := SUCCESS_RESPONSE_2,
      api_response1_alt := "OK", api_response2_alt := "",
      recordcount := toString pr.1.totalCount,
      displayed_recordcount := some (toString pr.1.displayedCount),
      cachetoken := if q.nodiscard then some providedToken else none }
  (.xml 200 summary (recordsBlockOf rset.resourceType q.summonly pr.1.records),
   st2)

/-- Legacy-cache fallback (lines 671–679): a truthy stored body is
replayed verbatim, otherwise fall through to the continuation. -/
def legacyOrContinue (st : ServerState) (sessionId resourceType : String)
    (q : Query) (providedToken : String) (gen : Nat → CmciRecord)
    (freshTok legacyTok : String) (now : Int) : HttpResponse × ServerState :=
  match mapGet st.legacyCache providedToken with
  | some body =>
    if body = "" then
      wildcardContinue st sessionId resourceType q gen freshTok legacyTok now
    else (.raw 200 body, st)
  | none => wildcardContinue st sessionId resourceType q gen freshTok legacyTok now

/-- Handler for `GET /CICSSystemManagement/*` (lines 563–778).
`resourceType` is the result of `parseResourceFromPath` (`none` = no
resource segment).  A truthy provided cache token is tried against the
retained store (ownership checked first, then expiry — an expired set
is evicted and the request falls through), then against the legacy
cache, before fresh generation. -/
def handleWildcardGet (st : ServerState) (sessionId : String)
    (resourceType : Option String) (q : Query) (gen : Nat → CmciRecord)
    (freshTok legacyTok : String) (now : Int) : HttpResponse × ServerState :=
  match resourceType with
  | none =>
    (.xml 400
      { api_function := some "GET", api_response1 := RESPONSE_INVALIDPARM,
        api_response2 := SUCCESS_RESPONSE_2, api_response1_alt := "INVALIDPARM",
        api_response2_alt := "", recordcount := "0" } none, st)
  | some rt =>
    if rt = "cicsresultcache" then
      (.xml 400
        { api_function := some "GET", api_response1 := RESPONSE_INVALIDPARM,
          api_response2 := SUCCESS_RESPONSE_2, api_response1_alt := "INVALIDPARM",
          api_response2_alt := "Use CICSResultCache/\x7btoken\x7d format",
          recordcount := "0" } none, st)
    else
      match jsOrOpt q.cachetoken q.cacheToken2 with
      | some tok =>
        if tok = "" then
          wildcardContinue st sessionId rt q gen freshTok legacyTok now
        else
          match mapGet st.retainedResultSets tok with
          | some rset =>
            if rset.sessionId ≠ sessionId then (accessDeniedResponse, st)
            else if rset.isExpired now then
              legacyOrContinue
                { st with retainedResultSets :=
                    mapDelete st.retainedResultSets tok }
                sessionId rt q tok gen freshTok legacyTok now
            else cacheHitPage st tok rset q now
          | none => legacyOrContinue st sessionId rt q tok gen freshTok legacyTok now
      | none => wildcardContinue st sessionId rt q gen freshTok legacyTok now

/-! ## Response projections -/

/-- The record block of a response (`none` for raw replays). -/
def HttpResponse.recordsOut : HttpResponse → Option RecordsBlock
  | .xml _ _ r => r
  | .raw _ _ => none

/-- The result summary of a response (`none` for raw replays). -/
def HttpResponse.summaryOut : HttpResponse → Option ResultSummary
  | .xml _ s _ => some s
  | .raw _ _ => none

/-- The echoed cache token of a response. -/
def HttpResponse.cachetokenOut : HttpResponse → Option String
  | .xml _ s _ => s.cachetoken
  | .raw _ _ => none

/-! ## The string order underlying the comparator -/

theorem ltChars_irrefl : ∀ as, ltChars as as = false := by
  intro as
  induction as with
  | nil => rfl
  | cons a as ih => simp [ltChars, ih]

theorem ltChars_asymm : ∀ as bs, ltChars as bs = true → ltChars bs as = false := by
  intro as
  induction as with
  | nil =>
    intro bs h
    cases bs with
    | nil => rfl
    | cons b bs => rfl
  | cons a as ih =>
    intro bs h
    cases bs with
    | nil => simp [ltChars] at h
    | cons b bs =>
      simp only [ltChars] at h ⊢
      rcases lt_trichotomy a b with hab | hab | hab
      · simp [hab, asymm hab]
      · subst hab; simp only [lt_irrefl, if_false] at h ⊢; exact ih bs h
      · simp [hab, asymm hab] at h

theorem ltChars_eq_of_not : ∀ as bs, ltChars as bs = false →
    ltChars bs as = false → as = bs := by
  intro as
  induction as with
  | nil =>
    intro bs h1 h2
    cases bs with
    | nil => rfl
    | cons b bs => simp [ltChars] at h1
  | cons a as ih =>
    intro bs h1 h2
    cases bs with
    | nil => simp [ltChars] at h2
    | cons b bs =>
      simp only [ltChars] at h1 h2
      rcases lt_trichotomy a b with hab | hab | hab
      · simp [hab] at h1
      · subst hab
        simp only [lt_irrefl, if_false] at h1 h2
        exact congrArg (a :: ·) (ih bs h1 h2)
      · simp [hab] at h2

theorem ltChars_trans : ∀ as bs cs, ltChars as bs = true →
    ltChars bs cs = true → ltChars as cs = true := by
  intro as
  induction as with
  | nil =>
    intro bs cs h1 h2
    cases cs with
    | nil => cases bs <;> simp [ltChars] at h2
    | cons c cs => rfl
  | cons a as ih =>
    intro bs cs h1 h2
    cases bs with
    | nil => simp [ltChars] at h1
    | cons b bs =>
      cases cs with
      | nil => simp [ltChars] at h2
      | cons c cs =>
        simp only [ltChars] at h1 h2 ⊢
        rcases lt_trichotomy a b with hab | hab | hab
        · rcases lt_trichotomy b c with hbc | hbc | hbc
          · have hac : a < c := lt_trans hab hbc
            simp [hac]
          · subst hbc; simp [hab]
          · simp [hbc, asymm hbc] at h2
        · subst hab
          simp only [lt_irrefl, if_false] at h1
          rcases lt_trichotomy a c with hac | hac | hac
          · simp [hac]
          · subst hac
            simp only [lt_irrefl, if_false] at h2 ⊢
            exact ih bs cs h1 h2
          · simp [hac, lt_asymm hac] at h2
        · simp [hab, asymm hab] at h1

theorem strLt_irrefl (a : String) : strLt a a = false := ltChars_irrefl _

theorem strLt_asymm {a b : String} (h : strLt a b = true) : strLt b a = false :=
  ltChars_asymm _ _ h

theorem strLt_eq_of_not {a b : String} (h1 : strLt a b = false)
    (h2 : strLt b a = false) : a = b :=
  String.ext (ltChars_eq_of_not _ _ h1 h2)

theorem strLt_trans {a b c : String} (h1 : strLt a b = true)
    (h2 : strLt b c = true) : strLt a c = true :=
  ltChars_trans _ _ _ h1 h2

/-! ## Comparator lemmas -/

theorem recLe_eq_true_iff (fields : List String) (a b : CmciRecord) :
    recLe fields a b = true ↔ fieldCmp fields a b ≠ .gt := by
  unfold recLe
  cases fieldCmp fields a b <;> simp

theorem fieldCmp_gt_iff_lt : ∀ (fields : List String) (a b : CmciRecord),
    fieldCmp fields a b = .gt ↔ fieldCmp fields b a = .lt := by
  intro fields
  induction fields with
  | nil => intro a b; simp [fieldCmp]
  | cons f rest ih =>
    intro a b
    simp only [fieldCmp]
    cases p : strLt (getField a f) (getField b f)
    · cases q : strLt (getField b f) (getField a f)
      · simp [ih a b]
      · simp
    · simp [strLt_asymm p]

theorem fieldCmp_le_trans : ∀ (fields : List String) (a b c : CmciRecord),
    fieldCmp fields a b ≠ .gt → fieldCmp fields b c ≠ .gt →
      fieldCmp fields a c ≠ .gt := by
  intro fields
  induction fields with
  | nil => intro a b c h1 h2; simp [fieldCmp]
  | cons f rest ih =>
    intro a b c h1 h2
    simp only [fieldCmp] at h1 h2 ⊢
    cases p1 : strLt (getField a f) (getField b f)
    · cases p1b : strLt (getField b f) (getField a f)
      · have e1 : getField a f = getField b f := strLt_eq_of_not p1 p1b
        cases p2 : strLt (getField b f) (getField c f)
        · cases p2b : strLt (getField c f) (getField b f)
          · have e2 : getField b f = getField c f := strLt_eq_of_not p2 p2b
            rw [e1, ← e2]
            simp only [strLt_irrefl, if_false]
            simp only [p1, p1b, if_false] at h1
            simp only [p2, p2b, if_false] at h2
            exact ih a b c h1 h2
          · simp [p2, p2b] at h2
        · rw [e1]
          simp [p2]
      · simp [p1, p1b] at h1
    · cases p2 : strLt (getField b f) (getField c f)
      · cases p2b : strLt (getField c f) (getField b f)
        · have e2 : getField b f = getField c f := strLt_eq_of_not p2 p2b
          rw [← e2]
          simp [p1]
        · simp [p2, p2b] at h2
      · have hac : strLt (getField a f) (getField c f) = true := strLt_trans p1 p2
        simp [hac]

theorem recLe_trans (fields : List String) (a b c : CmciRecord)
    (h1 : recLe fields a b = true) (h2 : recLe fields b c = true) :
    recLe fields a c = true :=
  (recLe_eq_true_iff fields a c).mpr
    (fieldCmp_le_trans fields a b c ((recLe_eq_true_iff fields a b).mp h1)
      ((recLe_eq_true_iff fields b c).mp h2))

theorem recLe_total (fields : List String) (a b : CmciRecord) :
    (recLe fields a b || recLe fields b a) = true := by
  cases h : recLe fields a b with
  | true => simp
  | false =>
    simp only [Bool.false_or]
    have hgt : fieldCmp fields a b = .gt := by
      revert h
      unfold recLe
      cases fieldCmp fields a b <;> simp
    have hlt : fieldCmp fields b a = .lt := (fieldCmp_gt_iff_lt fields a b).mp hgt
    unfold recLe
    rw [hlt]

theorem recLe_of_fieldCmp_eq {fields : List String} {a b : CmciRecord}
    (h : fieldCmp fields a b = .eq) : recLe fields a b = true := by
  unfold recLe
  rw [h]

theorem recLe_single_iff (F : String) (a b : CmciRecord) :
    recLe [F] a b = true ↔ strLt (getField b F) (getField a F) = false := by
  simp only [recLe, fieldCmp]
  cases p : strLt (getField a F) (getField b F)
  · cases q : strLt (getField b F) (getField a F) <;> simp
  · simp [strLt_asymm p]

theorem recLe_pair_iff (F1 F2 : String) (a b : CmciRecord) :
    recLe [F1, F2] a b = true ↔
      (strLt (getField a F1) (getField b F1) = true ∨
        (getField a F1 = getField b F1 ∧
          strLt (getField b F2) (getField a F2) = false)) := by
  simp only [recLe, fieldCmp]
  cases p1 : strLt (getField a F1) (getField b F1)
  · cases p1b : strLt (getField b F1) (getField a F1)
    · have e1 : getField a F1 = getField b F1 := strLt_eq_of_not p1 p1b
      cases p2 : strLt (getField a F2) (getField b F2)
      · cases p2b : strLt (getField b F2) (getField a F2)
        · simp [e1, p2b]
        · simp [p2b, e1]
      · simp [strLt_asymm p2, e1]
    · constructor
      · intro h
        simp [p1, p1b] at h
      · intro h
        exfalso
        rcases h with h | ⟨he, hn⟩
        · exact Bool.noConfusion h
        · rw [he] at p1b
          simp [strLt_irrefl] at p1b
  · simp [p1]

/-! ## Sort properties -/

theorem sortRecords_perm (fields : List String) (l : List CmciRecord) :
    (sortRecords fields l).Perm l :=
  List.mergeSort_perm l _

theorem sortRecords_length (fields : List String) (l : List CmciRecord) :
    (sortRecords fields l).length = l.length :=
  (sortRecords_perm fields l).length_eq

theorem sortRecords_pairwise (fields : List String) (l : List CmciRecord) :
    (sortRecords fields l).Pairwise (fun a b => recLe fields a b = true) :=
  List.sorted_mergeSort (fun a b c => recLe_trans fields a b c)
    (fun a b => recLe_total fields a b) l

theorem sortRecords_stable (fields : List String) (l : List CmciRecord)
    (a b : CmciRecord) (hab : fieldCmp fields a b = .eq)
    (hsub : [a, b].Sublist l) : [a, b].Sublist (sortRecords fields l) := by
  apply List.sublist_mergeSort (fun a b c => recLe_trans fields a b c)
    (fun a b => recLe_total fields a b)
  · refine List.pairwise_cons.mpr ⟨?_, ?_⟩
    · intro x hx
      rw [List.mem_singleton] at hx
      subst hx
      exact recLe_of_fieldCmp_eq hab
    · exact List.pairwise_singleton _ _
  · exact hsub

/-! ## Slice lemmas -/

theorem jsSlice_full {α : Type} (l : List α) :
    jsSlice l 0 (l.length : Int) = l := by
  unfold jsSlice
  have h0 : ¬ ((0 : Int) < 0) := by omega
  have h1 : ¬ ((l.length : Int) < 0) := by omega
  simp only [h0, h1, if_false]
  rw [min_eq_left (by omega : (0 : Int) ≤ (l.length : Int)), min_self]
  simp

theorem jsSlice_start_ge {α : Type} (l : List α) (s e : Int)
    (hs : (l.length : Int) ≤ s) : jsSlice l s e = [] := by
  unfold jsSlice
  have h0 : ¬ s < 0 := by omega
  simp only [h0, if_false]
  rw [min_eq_right hs]
  apply List.drop_eq_nil_of_le
  have := List.length_take_le ((if e < 0 then max ((l.length : Int) + e) 0
    else min e (l.length : Int)).toNat) l
  omega

theorem jsSlice_take {α : Type} (l : List α) (e : Int) (he : 0 ≤ e) :
    jsSlice l 0 e = l.take e.toNat := by
  unfold jsSlice
  have h0 : ¬ (0 : Int) < 0 := by omega
  have he0 : ¬ e < 0 := by omega
  simp only [h0, he0, if_false]
  rw [min_eq_left (by positivity : (0 : Int) ≤ (l.length : Int))]
  simp only [Int.toNat_zero, List.drop_zero]
  rcases le_total e (l.length : Int) with h | h
  · rw [min_eq_left h]
  · rw [min_eq_right h]
    simp only [Int.toNat_natCast, List.take_length]
    have : l.length ≤ e.toNat := by omega
    exact (List.take_of_length_le this).symm

/-! ## Map lemmas -/

theorem mapGet_mapDelete_self {α : Type} (m : List (String × α)) (k : String) :
    mapGet (mapDelete m k) k = none := by
  induction m with
  | nil => rfl
  | cons p m ih =>
    by_cases h : p.1 = k
    · simp [mapDelete, h, ih]
    · simp [mapDelete, mapGet, h, ih]

theorem mapGet_mapSet_self {α : Type} (m : List (String × α)) (k : String) (v : α) :
    mapGet (mapSet m k v) k = some v := by
  induction m with
  | nil => simp [mapSet, mapGet]
  | cons p m ih =>
    by_cases h : p.1 = k
    · simp [mapSet, mapGet, h]
    · simp [mapSet, mapGet, h, ih]

/-! ## Structural lemmas about `getRecords` -/

theorem getRecords_fst (rs : RetainedResultSet) (index : Int) (count : Option Int)
    (orderBy : Option String) (now : Int) :
    (rs.getRecords index count orderBy now).1 =
      ⟨jsSlice (pageRecordsList rs orderBy) (max 0 (index - 1))
          (pageEndIndex count (max 0 (index - 1))
            ((pageRecordsList rs orderBy).length : Int)),
        pageEndIndex count (max 0 (index - 1))
            ((pageRecordsList rs orderBy).length : Int) - max 0 (index - 1),
        rs.totalRecords⟩ := rfl

theorem getRecords_snd (rs : RetainedResultSet) (index : Int) (count : Option Int)
    (orderBy : Option String) (now : Int) :
    (rs.getRecords index count orderBy now).2 = { rs with lastAccessed := now } :=
  rfl

theorem pageRecordsList_length (rs : RetainedResultSet) (orderBy : Option String) :
    (pageRecordsList rs orderBy).length = rs.data.length := by
  unfold pageRecordsList
  cases orderBy with
  | none => rfl
  | some ob =>
    by_cases h : ob = ""
    · simp [h]
    · simp [h, sortRecords_length]

/-! ## Concrete fixtures for witnesses and counterexamples -/

def wRec1 : CmciRecord := ⟨[("applid", "B"), ("name", "x")]⟩
def wRec2 : CmciRecord := ⟨[("applid", "A"), ("name", "y")]⟩
def wRec3 : CmciRecord := ⟨[("applid", "A"), ("name", "w")]⟩
def wSet : RetainedResultSet :=
  RetainedResultSet.make "cicsprogram" [wRec1, wRec2, wRec3] "S1" ({} : Query) 0
def wGen : Nat → CmciRecord := fun _ => ⟨[("name", "G")]⟩

/-! ## Claims -/

/-- Claim C4: with a non-empty `orderByFields` list, the page operation
clone-sorts the full record list (a permutation of the data, the data
itself untouched), ascending under the lexicographic multi-field
tie-break chain, stably for records whose compared keys all tie;
ordering by one field `F` yields non-decreasing `F`-values, ordering by
`[F1, F2]` breaks `F1` ties using `F2`; a missing field reads as the
empty string; and `getRecords` with a truthy order-by string pages the
sorted clone of the full list. -/
theorem c4_orderby_sort (fields : List String) (l : List CmciRecord)
    (F F1 F2 : String) (rs : RetainedResultSet) (ob : String) (now : Int)
    (hob : ob ≠ "") :
    (sortRecords fields l).Perm l ∧
    (sortRecords fields l).Pairwise (fun a b => recLe fields a b = true) ∧
    ((sortRecords [F] l).map (fun r => getField r F)).Pairwise
      (fun x y => strLt y x = false) ∧
    (sortRecords [F1, F2] l).Pairwise (fun a b =>
      strLt (getField a F1) (getField b F1) = true ∨
        (getField a F1 = getField b F1 ∧
          strLt (getField b F2) (getField a F2) = false)) ∧
    (∀ a b : CmciRecord, fieldCmp fields a b = .eq → [a, b].Sublist l →
      [a, b].Sublist (sortRecords fields l)) ∧
    (∀ (r : CmciRecord) (f : String), List.lookup f r.attrs = none →
      getField r f = "") ∧
    ((rs.getRecords 1 none (some ob) now).1).records =
      sortRecords (splitFields ob) rs.data := by
  refine ⟨sortRecords_perm fields l, sortRecords_pairwise fields l, ?_, ?_, ?_, ?_, ?_⟩
  · rw [List.pairwise_map]
    exact (sortRecords_pairwise [F] l).imp
      (fun hab => (recLe_single_iff F _ _).mp hab)
  · exact (sortRecords_pairwise [F1, F2] l).imp
      (fun hab => (recLe_pair_iff F1 F2 _ _).mp hab)
  · intro a b he hsub
    exact sortRecords_stable fields l a b he hsub
  · intro r f h
    simp [getField, h]
  · rw [getRecords_fst]
    have hL : pageRecordsList rs (some ob) = sortRecords (splitFields ob) rs.data := by
      simp [pageRecordsList, hob]
    rw [hL]
    have h1 : max 0 ((1 : Int) - 1) = 0 := by omega
    rw [h1]
    have h2 : pageEndIndex none 0 ((sortRecords (splitFields ob) rs.data).length : Int) =
        ((sortRecords (splitFields ob) rs.data).length : Int) := rfl
    rw [h2]
    exact jsSlice_full _

/-- Claim C4 witness at a concrete input. -/
theorem c4_witness :
    ("applid" ≠ "") ∧
      ((wSet.getRecords 1 none (some "applid") 5).1).records =
        sortRecords (splitFields "applid") wSet.data :=
  ⟨by decide,
    (c4_orderby_sort ["applid"] [wRec1, wRec2] "applid" "applid" "name" wSet
        "applid" 5 (by decide)).2.2.2.2.2.2⟩

/-- Claim C2 counterexample: a retained set with 1 record paged at
index 3 returns zero records but `displayedCount = -1`, not 0 — the
code computes `endIndex - startIndex` without clamping, so
`displayed_recordcount` goes negative once `index` exceeds N+1. -/
theorem c2_counterexample :
    ((RetainedResultSet.make "cicsprogram" [wRec1] "S1" ({} : Query) 0).getRecords
        3 none none 5).1 = ⟨[], -1, 1⟩ := by
  decide

/-- Claim C2 (amended): paging past the end (1-based index > N) returns
zero records with `recordcount = N` and without error, but
`displayed_recordcount` equals `N - (index - 1)` whenever `count` is
absent or positive — 0 exactly when `index = N + 1` and negative
beyond — and is never positive. -/
theorem c2_page_past_end (resourceType sessionId : String)
    (data : List CmciRecord) (q0 : Query) (created index : Int)
    (count : Option Int) (orderBy : Option String) (now : Int)
    (hidx : (data.length : Int) < index) :
    (((RetainedResultSet.make resourceType data sessionId q0 created).getRecords
        index count orderBy now).1).records = [] ∧
    (((RetainedResultSet.make resourceType data sessionId q0 created).getRecords
        index count orderBy now).1).totalCount = data.length ∧
    (((RetainedResultSet.make resourceType data sessionId q0 created).getRecords
        index count orderBy now).1).displayedCount ≤ 0 ∧
    ((count = none ∨ ∃ c, count = some c ∧ 0 < c) →
      (((RetainedResultSet.make resourceType data sessionId q0 created).getRecords
          index count orderBy now).1).displayedCount =
        (data.length : Int) - (index - 1)) := by
  rw [getRecords_fst]
  have hlen : (pageRecordsList
      (RetainedResultSet.make resourceType data sessionId q0 created)
      orderBy).length = data.length := by
    rw [pageRecordsList_length]
    rfl
  rw [hlen]
  have hstart : max 0 (index - 1) = index - 1 := by
    rw [max_eq_right]
    omega
  rw [hstart]
  have hendle : pageEndIndex count (index - 1) (data.length : Int) ≤
      (data.length : Int) := by
    cases count with
    | none => exact le_refl _
    | some c =>
      simp only [pageEndIndex]
      by_cases h : c = 0
      · simp [h]
      · simp only [h, if_false]
        exact min_le_right _ _
  refine ⟨?_, rfl, ?_, ?_⟩
  · exact jsSlice_start_ge _ _ _ (by rw [hlen]; omega)
  · show pageEndIndex count (index - 1) (data.length : Int) - (index - 1) ≤ 0
    omega
  · intro h
    have hend : pageEndIndex count (index - 1) (data.length : Int) =
        (data.length : Int) := by
      rcases h with h | ⟨c, hc, hcpos⟩
      · rw [h]; rfl
      · rw [hc]
        simp only [pageEndIndex]
        rw [if_neg (by omega)]
        exact min_eq_right (by omega)
    show pageEndIndex count (index - 1) (data.length : Int) - (index - 1) =
      (data.length : Int) - (index - 1)
    rw [hend]

/-- Claim C2 witness at a concrete input. -/
theorem c2_witness :
    ((([wRec1] : List CmciRecord).length : Int) < 3) ∧
      (((RetainedResultSet.make "cicsprogram" [wRec1] "S1" ({} : Query) 0).getRecords
          3 none none 5).1).records = [] :=
  ⟨by decide,
    (c2_page_past_end "cicsprogram" "S1" [wRec1] ({} : Query) 0 3 none none 5
        (by decide)).1⟩

/-- Claim C5: creating a retained result set with N records and paging
with index 1, count K > 0 returns exactly the first min(K, N) records,
`displayedCount = min(K, N)`, `totalCount = N`, and the stored record
list is untouched (the paged copy is a clone; only `lastAccessed`
changes). -/
theorem c5_first_page (resourceType sessionId : String)
    (data : List CmciRecord) (q0 : Query) (created : Int) (K : Int)
    (now : Int) (hK : 0 < K) :
    (((RetainedResultSet.make resourceType data sessionId q0 created).getRecords
        1 (some K) none now).1).records = data.take K.toNat ∧
    (((RetainedResultSet.make resourceType data sessionId q0 created).getRecords
        1 (some K) none now).1).records.length = min K.toNat data.length ∧
    (((RetainedResultSet.make resourceType data sessionId q0 created).getRecords
        1 (some K) none now).1).displayedCount = min K (data.length : Int) ∧
    (((RetainedResultSet.make resourceType data sessionId q0 created).getRecords
        1 (some K) none now).1).totalCount = data.length ∧
    (((RetainedResultSet.make resourceType data sessionId q0 created).getRecords
        1 (some K) none now).2).data = data := by
  rw [getRecords_fst, getRecords_snd]
  have hL : pageRecordsList
      (RetainedResultSet.make resourceType data sessionId q0 created) none =
      data := rfl
  rw [hL]
  have hstart : max 0 ((1 : Int) - 1) = 0 := by omega
  rw [hstart]
  have hend : pageEndIndex (some K) 0 ((data.length : Int)) =
      min K (data.length : Int) := by
    simp only [pageEndIndex]
    rw [if_neg (by omega), zero_add]
  rw [hend]
  have hmin0 : (0 : Int) ≤ min K (data.length : Int) :=
    le_min (le_of_lt hK) (Int.natCast_nonneg _)
  have htake : jsSlice data 0 (min K (data.length : Int)) = data.take K.toNat := by
    rw [jsSlice_take data _ hmin0]
    rcases le_total K (data.length : Int) with h | h
    · rw [min_eq_left h]
    · rw [min_eq_right h]
      simp only [Int.toNat_natCast, List.take_length]
      exact (List.take_of_length_le (by omega)).symm
  refine ⟨htake, ?_, ?_, rfl, rfl⟩
  · show (jsSlice data 0 (min K (data.length : Int))).length =
      min K.toNat data.length
    rw [htake, List.length_take]
  · show min K (data.length : Int) - 0 = min K (data.length : Int)
    rw [sub_zero]

/-- Claim C5 witness at a concrete input. -/
theorem c5_witness :
    ((0 : Int) < 2) ∧
      (((RetainedResultSet.make "cicsprogram" [wRec1, wRec2, wRec3] "S1"
          ({} : Query) 0).getRecords 1 (some 2) none 5).1).records =
        ([wRec1, wRec2, wRec3] : List CmciRecord).take ((2 : Int)).toNat :=
  ⟨by decide,
    (c5_first_page "cicsprogram" "S1" [wRec1, wRec2, wRec3] ({} : Query) 0 2 5
        (by decide)).1⟩

def stW : ServerState := ⟨[("TOK", wSet)], []⟩

/-- Claim C6: any access (get, page, or discard all run through the same
handlers) to an existing retained result set by a session other than the
owner returns the 403 AccessDenied error — whose body carries
`recordcount = "0"` and no record block, independent of the stored
records — and leaves the server state (in particular the set) untouched,
on both the dedicated sub-path and the cachetoken query-parameter path. -/
theorem c6_access_denied (st : ServerState) (sessionId cachetoken : String)
    (rs : RetainedResultSet) (pathIndex pathCount : Option Int) (q : Query)
    (rt : String) (gen : Nat → CmciRecord) (freshTok legacyTok : String)
    (now : Int)
    (hfound : mapGet st.retainedResultSets cachetoken = some rs)
    (hsess : rs.sessionId ≠ sessionId)
    (hrt : rt ≠ "cicsresultcache")
    (htok : jsOrOpt q.cachetoken q.cacheToken2 = some cachetoken)
    (hne : cachetoken ≠ "") :
    handleResultCache st sessionId cachetoken pathIndex pathCount q now =
      (accessDeniedResponse, st) ∧
    handleWildcardGet st sessionId (some rt) q gen freshTok legacyTok now =
      (accessDeniedResponse, st) ∧
    accessDeniedResponse =
      .xml 403
        { api_function := some "GET", api_response1 := RESPONSE_NOTAVAILABLE,
          api_response2 := SUCCESS_RESPONSE_2,
          api_response1_alt := "NOTAVAILABLE",
          api_response2_alt := "Access denied", recordcount := "0" }
        none := by
  refine ⟨?_, ?_, rfl⟩
  · simp only [handleResultCache, hfound]
    rw [if_pos hsess]
  · simp only [handleWildcardGet, htok, hfound]
    rw [if_neg hrt, if_neg hne, if_pos hsess]

/-- Claim C6 witness at a concrete input. -/
theorem c6_witness :
    (wSet.sessionId ≠ "S2") ∧
      handleResultCache stW "S2" "TOK" none none
          ({ cachetoken := some "TOK" } : Query) 5 =
        (accessDeniedResponse, stW) :=
  ⟨by decide,
    (c6_access_denied stW "S2" "TOK" wSet none none
        ({ cachetoken := some "TOK" } : Query) "cicsprogram"
        wGen "F" "L" 5 (by decide) (by decide) (by decide) (by decide)
        (by decide)).1⟩

/-- Claim C7: on the dedicated sub-path, an owner access without the
NODISCARD directive removes the set during the access, and the very
next dedicated-path access with the same token gets the 404
TokenNotFound error; with the directive the (touched) set remains and
the token is echoed in the response summary. -/
theorem c7_discard_lifecycle (st : ServerState) (sessionId cachetoken : String)
    (rs : RetainedResultSet) (pathIndex pathCount pathIndex2 pathCount2 : Option Int)
    (q q2 : Query) (now now2 : Int)
    (hfound : mapGet st.retainedResultSets cachetoken = some rs)
    (hsess : rs.sessionId = sessionId) :
    (q.nodiscard = false →
      mapGet (handleResultCache st sessionId cachetoken pathIndex pathCount
          q now).2.retainedResultSets cachetoken = none ∧
      handleResultCache
          (handleResultCache st sessionId cachetoken pathIndex pathCount q now).2
          sessionId cachetoken pathIndex2 pathCount2 q2 now2 =
        (tokenNotFoundResponse,
          (handleResultCache st sessionId cachetoken pathIndex pathCount q now).2)) ∧
    (q.nodiscard = true →
      mapGet (handleResultCache st sessionId cachetoken pathIndex pathCount
          q now).2.retainedResultSets cachetoken =
        some { rs with lastAccessed := now } ∧
      (handleResultCache st sessionId cachetoken pathIndex pathCount
          q now).1.cachetokenOut = some cachetoken) := by
  constructor
  · intro hq
    have hstate : (handleResultCache st sessionId cachetoken pathIndex pathCount
        q now).2 =
        { st with retainedResultSets :=
            mapDelete (mapSet st.retainedResultSets cachetoken
              { rs with lastAccessed := now }) cachetoken } := by
      simp only [handleResultCache, hfound]
      rw [if_neg (by simp [hsess])]
      simp only [getRecords_snd, hq, Bool.false_eq_true, if_false]
    have h1 : mapGet (handleResultCache st sessionId cachetoken pathIndex
        pathCount q now).2.retainedResultSets cachetoken = none := by
      rw [hstate]
      exact mapGet_mapDelete_self _ _
    refine ⟨h1, ?_⟩
    rw [hstate]
    simp only [handleResultCache, mapGet_mapDelete_self]
  · intro hq
    have hstate : (handleResultCache st sessionId cachetoken pathIndex pathCount
        q now).2 =
        { st with retainedResultSets :=
            (mapSet st.retainedResultSets cachetoken
              { rs with lastAccessed := now }) } := by
      simp only [handleResultCache, hfound]
      rw [if_neg (by simp [hsess])]
      simp only [getRecords_snd, hq, eq_self_iff_true, if_true]
    constructor
    · rw [hstate]
      exact mapGet_mapSet_self _ _ _
    · simp only [handleResultCache, hfound]
      rw [if_neg (by simp [hsess])]
      simp only [HttpResponse.cachetokenOut, hq, eq_self_iff_true, if_true]

/-- Claim C7 witness at a concrete input. -/
theorem c7_witness :
    (({} : Query).nodiscard = false) ∧
      mapGet (handleResultCache stW "S1" "TOK" none none ({} : Query)
          5).2.retainedResultSets "TOK" = none :=
  ⟨rfl,
    ((c7_discard_lifecycle stW "S1" "TOK" wSet none none none none ({} : Query)
        ({} : Query) 5 6 (by decide) (by decide)).1 rfl).1⟩

/-- Claim C1 counterexample: `stW` holds the set `wSet` (last accessed
at 0) and is accessed at t = 10^9 ms (far beyond 15 minutes).  The
query-parameter access answers 200 (fresh generation), not the 404
NOTAVAILABLE error, and the dedicated sub-path access also answers 200,
serving the expired set. -/
theorem c1_counterexample :
    (wSet.isExpired 1000000000 = true) ∧
    (handleWildcardGet stW "S1" (some "cicsprogram")
        ({ cachetoken := some "TOK" } : Query) wGen "F" "L"
        1000000000).1.status = 200 ∧
    (handleWildcardGet stW "S1" (some "cicsprogram")
        ({ cachetoken := some "TOK" } : Query) wGen "F" "L" 1000000000).1 ≠
      tokenNotFoundResponse ∧
    (handleResultCache stW "S1" "TOK" none none ({} : Query)
        1000000000).1.status = 200 := by
  decide

/-- Claim C1 (amended): when more than 15 minutes have elapsed since
`lastAccessed`, an owner access through the cachetoken query parameter
evicts the set and falls through to the legacy cache and fresh
generation (so the token is afterwards absent from the retained store),
rather than answering the 404 NOTAVAILABLE error; an access through the
dedicated ResultCache sub-path performs no expiry check at all and
answers 200, serving the expired set. -/
theorem c1_expired_access (st : ServerState) (sessionId rt cachetoken : String)
    (q : Query) (rset : RetainedResultSet) (gen : Nat → CmciRecord)
    (freshTok legacyTok : String) (now : Int) (st2 : ServerState)
    (sessionId2 cachetoken2 : String) (rset2 : RetainedResultSet)
    (pathIndex pathCount : Option Int) (q2 : Query) (now2 : Int)
    (hrt : rt ≠ "cicsresultcache")
    (htok : jsOrOpt q.cachetoken q.cacheToken2 = some cachetoken)
    (hne : cachetoken ≠ "")
    (hfound : mapGet st.retainedResultSets cachetoken = some rset)
    (hsess : rset.sessionId = sessionId)
    (hexp : rset.isExpired now = true)
    (hfound2 : mapGet st2.retainedResultSets cachetoken2 = some rset2)
    (hsess2 : rset2.sessionId = sessionId2)
    (hexp2 : rset2.isExpired now2 = true) :
    handleWildcardGet st sessionId (some rt) q gen freshTok legacyTok now =
      legacyOrContinue
        { st with retainedResultSets := mapDelete st.retainedResultSets cachetoken }
        sessionId rt q cachetoken gen freshTok legacyTok now ∧
    mapGet (mapDelete st.retainedResultSets cachetoken) cachetoken = none ∧
    (handleResultCache st2 sessionId2 cachetoken2 pathIndex pathCount q2
        now2).1.status = 200 ∧
    (handleResultCache st2 sessionId2 cachetoken2 pathIndex pathCount q2
        now2).1 ≠ tokenNotFoundResponse := by
  refine ⟨?_, mapGet_mapDelete_self _ _, ?_, ?_⟩
  · simp only [handleWildcardGet, htok, hfound]
    rw [if_neg hrt, if_neg hne, if_neg (by simp [hsess]), if_pos hexp]
  · simp only [handleResultCache, hfound2]
    rw [if_neg (by simp [hsess2])]
    rfl
  · simp only [handleResultCache, hfound2]
    rw [if_neg (by simp [hsess2])]
    simp [tokenNotFoundResponse]

/-- Claim C1 witness at a concrete input. -/
theorem c1_witness :
    (wSet.isExpired 1000000001 = true) ∧
      mapGet (mapDelete stW.retainedResultSets "TOK") "TOK" = none :=
  ⟨by decide,
    (c1_expired_access stW "S1" "cicsprogram" "TOK"
        ({ cachetoken := some "TOK" } : Query) wSet wGen "F" "L" 1000000001
        stW "S1" "TOK" wSet none none ({} : Query) 1000000001 (by decide)
        (by decide) (by decide) (by decide) (by decide) (by decide)
        (by decide) (by decide) (by decide)).2.1⟩

/-- Claim C3 counterexample: a token present in neither store, sent to
the wildcard resource path, is answered with a fresh 200 OK response,
not the 404 NOTAVAILABLE TokenNotFound error. -/
theorem c3_counterexample :
    (handleWildcardGet ⟨[], []⟩ "S1" (some "cicsprogram")
        ({ cachetoken := some "DEADBEEF" } : Query) wGen "F" "L"
        5).1.status = 200 ∧
    (handleWildcardGet ⟨[], []⟩ "S1" (some "cicsprogram")
        ({ cachetoken := some "DEADBEEF" } : Query) wGen "F" "L" 5).1 ≠
      tokenNotFoundResponse := by
  decide

/-- Claim C3 (amended): on the wildcard resource path, a cachetoken
unknown to both the retained store and the legacy cache makes the
request fall through to fresh handling (the nodata simulation or mock
generation), always with status 200 — never the 404 NOTAVAILABLE error.
Only the dedicated CICSResultCache endpoint answers an unknown token
with the 404 NOTAVAILABLE TokenNotFound error. -/
theorem c3_unknown_token (st : ServerState) (sessionId rt cachetoken : String)
    (q : Query) (gen : Nat → CmciRecord) (freshTok legacyTok : String)
    (now : Int) (st2 : ServerState) (sessionId2 cachetoken2 : String)
    (pathIndex pathCount : Option Int) (q2 : Query) (now2 : Int)
    (hrt : rt ≠ "cicsresultcache")
    (htok : jsOrOpt q.cachetoken q.cacheToken2 = some cachetoken)
    (hne : cachetoken ≠ "")
    (hmiss : mapGet st.retainedResultSets cachetoken = none)
    (hlegacy : mapGet st.legacyCache cachetoken = none)
    (hmiss2 : mapGet st2.retainedResultSets cachetoken2 = none) :
    handleWildcardGet st sessionId (some rt) q gen freshTok legacyTok now =
      wildcardContinue st sessionId rt q gen freshTok legacyTok now ∧
    (wildcardContinue st sessionId rt q gen freshTok legacyTok now).1.status =
      200 ∧
    handleResultCache st2 sessionId2 cachetoken2 pathIndex pathCount q2 now2 =
      (tokenNotFoundResponse, st2) ∧
    tokenNotFoundResponse.status = 404 := by
  refine ⟨?_, ?_, ?_, rfl⟩
  · simp only [handleWildcardGet, htok, hmiss]
    rw [if_neg hrt, if_neg hne]
    simp only [legacyOrContinue, hlegacy]
  · by_cases hsim : q.simulate = some "nodata"
    · simp only [wildcardContinue]
      rw [if_pos hsim]
      rfl
    · simp only [wildcardContinue]
      rw [if_neg hsim]
      rfl
  · simp only [handleResultCache, hmiss2]

/-- Claim C3 witness at a concrete input. -/
theorem c3_witness :
    (mapGet (⟨[], []⟩ : ServerState).retainedResultSets "DEADBEEF" = none) ∧
      handleResultCache ⟨[], []⟩ "S1" "DEADBEEF" none none ({} : Query) 5 =
        (tokenNotFoundResponse, ⟨[], []⟩) :=
  ⟨rfl,
    (c3_unknown_token ⟨[], []⟩ "S1" "cicsprogram" "DEADBEEF"
        ({ cachetoken := some "DEADBEEF" } : Query) wGen "F" "L" 5
        ⟨[], []⟩ "S1" "DEADBEEF" none none ({} : Query) 5 (by decide)
        (by decide) (by decide) rfl rfl rfl).2.2.1⟩

/-- Claim C10: a cachetoken that misses the retained store but hits a
(non-empty, hence truthy) legacy cache entry is answered by replaying
the stored serialized body verbatim with status 200, for every
combination of index, count, orderby, retain and summary-only
parameters, and the server state — including the legacy entry — is
unchanged. -/
theorem c10_legacy_replay (st : ServerState) (sessionId rt cachetoken body : String)
    (q : Query) (gen : Nat → CmciRecord) (freshTok legacyTok : String) (now : Int)
    (hrt : rt ≠ "cicsresultcache")
    (htok : jsOrOpt q.cachetoken q.cacheToken2 = some cachetoken)
    (hne : cachetoken ≠ "")
    (hmiss : mapGet st.retainedResultSets cachetoken = none)
    (hhit : mapGet st.legacyCache cachetoken = some body)
    (hbody : body ≠ "") :
    handleWildcardGet st sessionId (some rt) q gen freshTok legacyTok now =
      (.raw 200 body, st) := by
  simp only [handleWildcardGet, htok, hmiss]
  rw [if_neg hrt, if_neg hne]
  simp only [legacyOrContinue, hhit]
  rw [if_neg hbody]

/-- Claim C10 witness at a concrete input (note the unrelated paging,
ordering and retention parameters, which do not affect the replay). -/
theorem c10_witness :
    ("BODY" ≠ "") ∧
      handleWildcardGet ⟨[], [("LT", "BODY")]⟩ "S1" (some "cicsprogram")
          ({ cachetoken := some "LT", index := some 2, count := some "7",
             orderby := some "name", nodiscard := true,
             summonly := true } : Query) wGen "F" "L" 5 =
        (.raw 200 "BODY", ⟨[], [("LT", "BODY")]⟩) :=
  ⟨by decide,
    c10_legacy_replay ⟨[], [("LT", "BODY")]⟩ "S1" "cicsprogram" "LT" "BODY"
      ({ cachetoken := some "LT", index := some 2, count := some "7",
         orderby := some "name", nodiscard := true,
         summonly := true } : Query) wGen "F" "L" 5 (by decide) (by decide)
      (by decide) rfl rfl (by decide)⟩

/-- Claim C8 counterexample: `stW`'s only entry `wSet` (same session,
same resource type, matching signature) is long expired at t = 10^9 ms,
yet a token-less request is answered with that entry's token `"TOK"`
and no new entry is created — the dedup scan does not check expiry, so
an existing *expired* set short-circuits creation, contradicting the
claimed non-expired check. -/
theorem c8_counterexample :
    (wSet.isExpired 1000000000 = true) ∧
    (handleWildcardGet stW "S1" (some "cicsprogram") ({} : Query) wGen "F" "L"
        1000000000).1.cachetokenOut = some "TOK" ∧
    (handleWildcardGet stW "S1" (some "cicsprogram") ({} : Query) wGen "F" "L"
        1000000000).2 = stW := by
  decide

/-- Claim C8 (amended): before creating a retained set for a token-less
resource request, the server scans for an existing result set owned by
the same session with an equivalent (resourceType, relevant query
parameters) signature — without consulting expiry — and when one exists
returns that set's token and creates nothing; only when none exists
does it store a new set under the fresh token. -/
theorem c8_dedup (st : ServerState) (sessionId rt : String) (q : Query)
    (gen : Nat → CmciRecord) (freshTok legacyTok : String) (now : Int)
    (hrt : rt ≠ "cicsresultcache")
    (hnotok : truthyStr (jsOrOpt q.cachetoken q.cacheToken2) = false)
    (hsim : q.simulate ≠ some "nodata") :
    (∀ etok, findDedup st.retainedResultSets sessionId rt q = some etok →
      (handleWildcardGet st sessionId (some rt) q gen freshTok legacyTok
          now).1.cachetokenOut = some etok ∧
      (handleWildcardGet st sessionId (some rt) q gen freshTok legacyTok
          now).2 = st) ∧
    (findDedup st.retainedResultSets sessionId rt q = none →
      (handleWildcardGet st sessionId (some rt) q gen freshTok legacyTok
          now).1.cachetokenOut = some freshTok ∧
      (handleWildcardGet st sessionId (some rt) q gen freshTok legacyTok
          now).2.retainedResultSets =
        mapSet st.retainedResultSets freshTok
          (RetainedResultSet.make rt (genMockRecords gen q.count) sessionId q
            now)) := by
  have hred : handleWildcardGet st sessionId (some rt) q gen freshTok legacyTok
      now = wildcardContinue st sessionId rt q gen freshTok legacyTok now := by
    rcases ht : jsOrOpt q.cachetoken q.cacheToken2 with _ | s
    · simp only [handleWildcardGet, ht]
      rw [if_neg hrt]
    · have hs : s = "" := by
        rw [ht] at hnotok
        simpa [truthyStr] using hnotok
      subst hs
      simp only [handleWildcardGet, ht]
      rw [if_neg hrt]
      simp
  have htruthy : truthyStr (jsOrOpt q.cachetoken q.cacheToken2) = false := hnotok
  constructor
  · intro etok hd
    rw [hred]
    constructor
    · simp only [wildcardContinue, hd, htruthy]
      rw [if_neg hsim]
      simp [HttpResponse.cachetokenOut]
    · simp only [wildcardContinue, hd, htruthy]
      rw [if_neg hsim]
      simp
  · intro hd
    rw [hred]
    constructor
    · simp only [wildcardContinue, hd, htruthy]
      rw [if_neg hsim]
      simp [HttpResponse.cachetokenOut]
    · simp only [wildcardContinue, hd, htruthy]
      rw [if_neg hsim]
      simp

/-- Claim C8 witness at a concrete input. -/
theorem c8_witness :
    (findDedup stW.retainedResultSets "S1" "cicsprogram" ({} : Query) =
        some "TOK") ∧
      (handleWildcardGet stW "S1" (some "cicsprogram") ({} : Query) wGen "F"
          "L" 5).1.cachetokenOut = some "TOK" :=
  ⟨by decide,
    ((c8_dedup stW "S1" "cicsprogram" ({} : Query) wGen "F" "L" 5 (by decide)
        rfl (by decide)).1 "TOK" (by decide)).1⟩

/-! ## Record-block shape helpers for C9 -/

theorem recordsBlockOf_summonly (rt : String) (l : List CmciRecord) :
    recordsBlockOf rt true l = none := rfl

theorem recordsBlockOf_nil (rt : String) (so : Bool) :
    recordsBlockOf rt so [] = none := by
  cases so <;> rfl

theorem recordsBlockOf_one (rt : String) (r : CmciRecord) :
    recordsBlockOf rt false [r] = some (.single rt r) := rfl

theorem recordsBlockOf_two (rt : String) (a b : CmciRecord)
    (tl : List CmciRecord) :
    recordsBlockOf rt false (a :: b :: tl) = some (.many rt (a :: b :: tl)) :=
  rfl

theorem freshRecordsBlockOf_summonly (rt : String) (l : List CmciRecord) :
    freshRecordsBlockOf rt true l = none := rfl

theorem freshRecordsBlockOf_nil (rt : String) :
    freshRecordsBlockOf rt false [] = some (.many rt []) := rfl

theorem freshRecordsBlockOf_one (rt : String) (r : CmciRecord) :
    freshRecordsBlockOf rt false [r] = some (.single rt r) := rfl

theorem freshRecordsBlockOf_two (rt : String) (a b : CmciRecord)
    (tl : List CmciRecord) :
    freshRecordsBlockOf rt false (a :: b :: tl) =
      some (.many rt (a :: b :: tl)) := rfl

theorem handleResultCache_recordsOut (st : ServerState)
    (sessionId cachetoken : String) (rs : RetainedResultSet)
    (pathIndex pathCount : Option Int) (q : Query) (now : Int)
    (hfound : mapGet st.retainedResultSets cachetoken = some rs)
    (hsess : rs.sessionId = sessionId) :
    (handleResultCache st sessionId cachetoken pathIndex pathCount q
        now).1.recordsOut =
      recordsBlockOf rs.resourceType q.summonly
        ((rs.getRecords (pathIndex.getD 1) pathCount
            (jsOrOpt q.orderby q.orderbyUpper) now).1).records := by
  simp only [handleResultCache, hfound]
  rw [if_neg (by simp [hsess])]
  rfl

theorem wildcardContinue_recordsOut (st : ServerState)
    (sessionId rt : String) (q : Query) (gen : Nat → CmciRecord)
    (freshTok legacyTok : String) (now : Int)
    (hsim : q.simulate ≠ some "nodata") :
    (wildcardContinue st sessionId rt q gen freshTok legacyTok
        now).1.recordsOut =
      freshRecordsBlockOf rt q.summonly (genMockRecords gen q.count) := by
  simp only [wildcardContinue]
  rw [if_neg hsim]
  rfl

/-- Claim C9 counterexample: a fresh-generation request for zero
records (count=0, not summary-only) delivers zero records yet the
response still carries a record block — the empty list under the
resource-type key — instead of omitting it. -/
theorem c9_counterexample :
    (genMockRecords wGen (({ count := some "0" } : Query).count) = []) ∧
    (handleWildcardGet ⟨[], []⟩ "S1" (some "cicsprogram")
        ({ count := some "0" } : Query) wGen "F" "L" 5).1.recordsOut =
      some (.many "cicsprogram" []) := by
  decide

/-- Claim C9 (amended): on the cache-page path (dedicated handler) the
record block is omitted when summary-only is requested or zero records
are delivered, is a single embedded object for exactly one record, and
a list for two or more; on the fresh-generation path the block is
omitted only under summary-only — with zero generated records it is
present as an empty list — and is likewise a single object for one
record and a list for two or more. -/
theorem c9_record_block_shapes (st : ServerState)
    (sessionId cachetoken : String) (rs : RetainedResultSet)
    (pathIndex pathCount : Option Int) (q : Query) (now : Int)
    (st3 : ServerState) (sessionId3 rt3 : String) (q3 : Query)
    (gen : Nat → CmciRecord) (freshTok legacyTok : String) (now3 : Int)
    (hfound : mapGet st.retainedResultSets cachetoken = some rs)
    (hsess : rs.sessionId = sessionId)
    (hsim3 : q3.simulate ≠ some "nodata") :
    ((q.summonly = true →
      (handleResultCache st sessionId cachetoken pathIndex pathCount q
          now).1.recordsOut = none) ∧
     (((rs.getRecords (pathIndex.getD 1) pathCount
          (jsOrOpt q.orderby q.orderbyUpper) now).1).records = [] →
      (handleResultCache st sessionId cachetoken pathIndex pathCount q
          now).1.recordsOut = none) ∧
     (∀ r, q.summonly = false →
      ((rs.getRecords (pathIndex.getD 1) pathCount
          (jsOrOpt q.orderby q.orderbyUpper) now).1).records = [r] →
      (handleResultCache st sessionId cachetoken pathIndex pathCount q
          now).1.recordsOut = some (.single rs.resourceType r)) ∧
     (∀ a b tl, q.summonly = false →
      ((rs.getRecords (pathIndex.getD 1) pathCount
          (jsOrOpt q.orderby q.orderbyUpper) now).1).records = a :: b :: tl →
      (handleResultCache st sessionId cachetoken pathIndex pathCount q
          now).1.recordsOut = some (.many rs.resourceType (a :: b :: tl)))) ∧
    ((q3.summonly = true →
      (wildcardContinue st3 sessionId3 rt3 q3 gen freshTok legacyTok
          now3).1.recordsOut = none) ∧
     (q3.summonly = false → genMockRecords gen q3.count = [] →
      (wildcardContinue st3 sessionId3 rt3 q3 gen freshTok legacyTok
          now3).1.recordsOut = some (.many rt3 [])) ∧
     (∀ r, q3.summonly = false → genMockRecords gen q3.count = [r] →
      (wildcardContinue st3 sessionId3 rt3 q3 gen freshTok legacyTok
          now3).1.recordsOut = some (.single rt3 r)) ∧
     (∀ a b tl, q3.summonly = false →
      genMockRecords gen q3.count = a :: b :: tl →
      (wildcardContinue st3 sessionId3 rt3 q3 gen freshTok legacyTok
          now3).1.recordsOut = some (.many rt3 (a :: b :: tl)))) := by
  have h1 := handleResultCache_recordsOut st sessionId cachetoken rs pathIndex
    pathCount q now hfound hsess
  have h2 := wildcardContinue_recordsOut st3 sessionId3 rt3 q3 gen freshTok
    legacyTok now3 hsim3
  refine ⟨⟨?_, ?_, ?_, ?_⟩, ?_, ?_, ?_, ?_⟩
  · intro hso
    rw [h1, hso, recordsBlockOf_summonly]
  · intro hrecs
    rw [h1, hrecs, recordsBlockOf_nil]
  · intro r hso hrecs
    rw [h1, hso, hrecs, recordsBlockOf_one]
  · intro a b tl hso hrecs
    rw [h1, hso, hrecs, recordsBlockOf_two]
  · intro hso
    rw [h2, hso, freshRecordsBlockOf_summonly]
  · intro hso hrecs
    rw [h2, hso, hrecs, freshRecordsBlockOf_nil]
  · intro r hso hrecs
    rw [h2, hso, hrecs, freshRecordsBlockOf_one]
  · intro a b tl hso hrecs
    rw [h2, hso, hrecs, freshRecordsBlockOf_two]

/-- Claim C9 witness at a concrete input. -/
theorem c9_witness :
    (genMockRecords wGen (({ count := some "2" } : Query).count) =
        wGen 0 :: wGen 1 :: []) ∧
      (wildcardContinue ⟨[], []⟩ "S1" "cicsprogram"
          ({ count := some "2" } : Query) wGen "F" "L" 5).1.recordsOut =
        some (.many "cicsprogram" (wGen 0 :: wGen 1 :: [])) :=
  ⟨by decide,
    ((c9_record_block_shapes stW "S1" "TOK" wSet none none ({} : Query) 5
        ⟨[], []⟩ "S1" "cicsprogram" ({ count := some "2" } : Query) wGen "F"
        "L" 5 (by decide) (by decide) (by decide)).2.2.2.2 (wGen 0) (wGen 1)
      [] rfl (by decide))⟩
